import Mathlib

/-!
Shallow embedding of the panel-extension adapter
(`src/packages/studio-base/src/components/PanelExtensionAdapter/PanelExtensionAdapter.tsx`)
of the `rgbitx/studio` repository, together with proofs of the behavioural
properties stated in the repository's specification.

The adapter is single-threaded, callback-driven React code.  We embed it as
explicit state-transition functions over record types:

* React `useState`/`useRef` cells become fields of explicit state records;
* JavaScript `Map` objects (which preserve insertion order) become
  association lists with `jsMapSet` / `jsMapDelete` / `jsMapValues` mirroring
  `Map.set` / `Map.delete` / `Array.from(map.values())`;
* effect bodies (`useLayoutEffect`, `useUpdateEffect`) become functions from
  state to state, invoked when their dependencies change;
* the hosted extension's render function, whose synchronous behaviour is the
  only thing the adapter observes at the call site, is represented by the
  outcome of its synchronous run: `Except String Unit` (either it returns or
  it throws an error).
-/

namespace Studio

/-! ## JavaScript `Map` semantics

JavaScript `Map` preserves insertion order: `set` on an existing key keeps its
position, `set` on a fresh key appends at the end, `delete` removes the entry,
and `values()` iterates in insertion order.  We model a `Map` as an
association list. -/

/-- JavaScript `Map.get`-style lookup: value of the first entry whose key is `k`. -/
def jsMapGet (m : List (String × α)) (k : String) : Option α :=
  (m.find? (fun kv => kv.1 == k)).map Prod.snd

/-- JavaScript `Map.set`: replace in place when the key is present, append when absent. -/
def jsMapSet (m : List (String × α)) (k : String) (v : α) : List (String × α) :=
  if m.any (fun kv => kv.1 == k) then
    m.map (fun kv => if kv.1 == k then (k, v) else kv)
  else
    m ++ [(k, v)]

/-- JavaScript `Map.delete`: drop every entry whose key is `k`. -/
def jsMapDelete (m : List (String × α)) (k : String) : List (String × α) :=
  m.filter (fun kv => kv.1 != k)

/-- JavaScript `Array.from(map.values())`: the values in insertion order. -/
def jsMapValues (m : List (String × α)) : List α :=
  m.map Prod.snd

theorem jsMapGet_set_of_present (m : List (String × α)) (k : String) (v : α)
    (h : m.any (fun kv => kv.1 == k) = true) :
    jsMapGet (m.map (fun kv => if kv.1 == k then (k, v) else kv)) k = some v := by
  induction m with
  | nil => simp at h
  | cons a rest ih =>
    by_cases hk : a.1 == k
    · simp [jsMapGet, List.find?, hk]
    · simp only [List.any_cons, Bool.or_eq_true] at h
      rcases h with h | h
      · exact absurd h hk
      · simpa [jsMapGet, List.find?, hk] using ih h

theorem jsMapGet_append_single_of_absent (m : List (String × α)) (k : String) (v : α)
    (h : m.any (fun kv => kv.1 == k) = false) :
    jsMapGet (m ++ [(k, v)]) k = some v := by
  induction m with
  | nil => simp [jsMapGet, List.find?]
  | cons a rest ih =>
    simp only [List.any_cons, Bool.or_eq_false_iff] at h
    have hk : (a.1 == k) = false := h.1
    simpa [jsMapGet, List.find?, hk] using ih h.2

/-- After `jsMapSet m k v`, looking up `k` yields `v`. -/
theorem jsMapGet_jsMapSet (m : List (String × α)) (k : String) (v : α) :
    jsMapGet (jsMapSet m k v) k = some v := by
  unfold jsMapSet
  by_cases h : m.any (fun kv => kv.1 == k) = true
  · rw [if_pos h]
    exact jsMapGet_set_of_present m k v h
  · rw [if_neg h]
    exact jsMapGet_append_single_of_absent m k v (Bool.not_eq_true _ ▸ eq_false_of_ne_true h)

/-- Deleting a key that was freshly inserted into a map that did not contain it
restores the original map. -/
theorem jsMapDelete_jsMapSet_of_absent (m : List (String × α)) (k : String) (v : α)
    (h : jsMapGet m k = none) :
    jsMapDelete (jsMapSet m k v) k = m := by
  have hfind : m.find? (fun kv => kv.1 == k) = none := by
    rcases hcase : m.find? (fun kv => kv.1 == k) with _ | e
    · exact hcase
    · simp [jsMapGet, hcase] at h
  have habs : m.any (fun kv => kv.1 == k) = false := by
    rw [Bool.eq_false_iff]
    intro hany
    rcases List.any_eq_true.mp hany with ⟨x, hx, hpx⟩
    have hnot := List.find?_eq_none.mp hfind x hx
    rw [hpx] at hnot
    exact hnot rfl
  unfold jsMapSet
  rw [if_neg (by simp [habs])]
  unfold jsMapDelete
  rw [List.filter_append]
  have hkeep : m.filter (fun kv => kv.1 != k) = m := by
    apply List.filter_eq_self.mpr
    intro kv hkv
    have : (kv.1 == k) = false := by
      by_contra hcontra
      have : m.any (fun kv => kv.1 == k) = true :=
        List.any_eq_true.mpr ⟨kv, hkv, Bool.not_eq_false _ ▸ hcontra⟩
      rw [habs] at this
      exact Bool.false_ne_true this
    simp [bne, this]
  rw [hkeep]
  simp [bne]

/-! ## The render cycle

`PanelExtensionAdapter.tsx`, lines 195-255.  The relevant React cells are

* `renderingRef.current` (line 195)          → `rendering`
* `slowRender` state (line 114)              → `slowRender`
* `error` state (line 101)                   → `error`

and we additionally count, as observable effects on the message pipeline and
the hosted extension,

* invocations of `pauseFrame(panelId)` (line 222)   → `pauseCalls`
* invocations of `resumeFrame()` (line 236)         → `resumeCalls`
* invocations of `renderFn(...)` (line 229)         → `renderInvocations`.
-/

/-- The render state computed by `buildRenderState` and handed to the hosted
extension.  The adapter never inspects its contents, so a single abstract
field suffices. -/
structure RenderState where
  data : Nat
deriving DecidableEq, Repr

/-- Adapter state touched by the render cycle, plus effect counters for the
interactions with the message pipeline and the hosted extension. -/
structure RenderCycleState where
  error : Option String
  slowRender : Bool
  rendering : Bool
  pauseCalls : Nat
  resumeCalls : Nat
  renderInvocations : Nat
deriving DecidableEq, Repr

/-- One run of the render `useLayoutEffect` body (lines 196-241).

`renderFn` is `none` when the hosted extension has not set `onRender`
(line 197 `if (!renderFn) return`); when present it carries the outcome of the
render function's synchronous run: `Except.ok ()` if it returns normally,
`Except.error e` if it throws `e`.  `renderState` is the result of
`buildRenderState` (line 201): `none` models the builder returning `undefined`
(line 212 `if (!renderState) return`).

When a render is already in flight (line 216 `renderingRef.current`) the
effect only raises the slow-render flag (line 217) and returns.  Otherwise it
clears the flag (line 221), acquires the pause token (line 222), marks
rendering in progress (line 225), clears the stored error (line 227) and
invokes the render function; a synchronous throw is caught and stored
(lines 239-241 `catch (err) { setError(err) }`). -/
def renderPass (renderFn : Option (Except String Unit)) (renderState : Option RenderState)
    (s : RenderCycleState) : RenderCycleState :=
  match renderFn with
  | none => s
  | some runOutcome =>
    match renderState with
    | none => s
    | some _ =>
      if s.rendering then
        { s with slowRender := true }
      else
        let s1 := { s with slowRender := false, pauseCalls := s.pauseCalls + 1,
                           rendering := true, error := none,
                           renderInvocations := s.renderInvocations + 1 }
        match runOutcome with
        | Except.ok _ => s1
        | Except.error e => { s1 with error := some e }

/-- The completion (`done`) callback closed over `doneCalled` that each render
invocation hands to the hosted extension (lines 229-238).  Input `doneCalled`
is the closure's flag before the call; the result pairs the flag after the
call with the new adapter state.  A repeated call is only logged
(line 232 `log.warn(...)`) and returns; the first call runs `resumeFrame()`
and clears `renderingRef.current`. -/
def doneEvent (doneCalled : Bool) (s : RenderCycleState) : Bool × RenderCycleState :=
  if doneCalled then
    (true, s)
  else
    (true, { s with resumeCalls := s.resumeCalls + 1, rendering := false })

/-- The adapter component's own render body, lines 467-469:
`if (error) throw error`.  A stored error is re-raised, which React surfaces
to the enclosing failure boundary. -/
def componentRender (s : RenderCycleState) : Except String Unit :=
  match s.error with
  | some e => Except.error e
  | none => Except.ok ()

/-- C1: at most one render invocation is in flight at a time.  If a produced
render state arrives while a render is outstanding (`rendering = true`), the
pass only sets the slow-render flag — no second invocation, no pause token;
once the outstanding render's completion callback has run, the next produced
render state triggers exactly one normal invocation and clears the
slow-render flag. -/
theorem single_flight_render (s : RenderCycleState) (fr fr2 : Except String Unit)
    (rs rs2 : RenderState) (hBusy : s.rendering = true) :
    renderPass (some fr) (some rs) s = { s with slowRender := true } ∧
    (doneEvent false (renderPass (some fr) (some rs) s)).2.rendering = false ∧
    (renderPass (some fr2) (some rs2)
        (doneEvent false (renderPass (some fr) (some rs) s)).2).renderInvocations =
      s.renderInvocations + 1 ∧
    (renderPass (some fr2) (some rs2)
        (doneEvent false (renderPass (some fr) (some rs) s)).2).slowRender = false := by
  cases fr2 <;> simp [renderPass, doneEvent, hBusy]

/-- C1 witness: the theorem instantiated at a concrete busy state. -/
theorem single_flight_render_wit :
    renderPass (some (Except.ok ())) (some ⟨0⟩)
        ⟨none, false, true, 1, 0, 1⟩ = { error := none, slowRender := true, rendering := true,
                                         pauseCalls := 1, resumeCalls := 0,
                                         renderInvocations := 1 } ∧
    (doneEvent false (renderPass (some (Except.ok ())) (some ⟨0⟩)
        ⟨none, false, true, 1, 0, 1⟩)).2.rendering = false ∧
    (renderPass (some (Except.ok ())) (some ⟨1⟩)
        (doneEvent false (renderPass (some (Except.ok ())) (some ⟨0⟩)
          ⟨none, false, true, 1, 0, 1⟩)).2).renderInvocations = 1 + 1 ∧
    (renderPass (some (Except.ok ())) (some ⟨1⟩)
        (doneEvent false (renderPass (some (Except.ok ())) (some ⟨0⟩)
          ⟨none, false, true, 1, 0, 1⟩)).2).slowRender = false :=
  single_flight_render ⟨none, false, true, 1, 0, 1⟩ (Except.ok ()) (Except.ok ()) ⟨0⟩ ⟨1⟩ rfl

/-- C2: the `done` callback is idempotent.  Starting from a fresh closure
(`doneCalled = false`), the second call changes nothing; across both calls the
pause token is resumed exactly once and the rendering flag is cleared exactly
once. -/
theorem done_callback_idempotent (s : RenderCycleState) :
    (doneEvent (doneEvent false s).1 (doneEvent false s).2).2 = (doneEvent false s).2 ∧
    (doneEvent false s).2.resumeCalls = s.resumeCalls + 1 ∧
    (doneEvent (doneEvent false s).1 (doneEvent false s).2).2.resumeCalls =
      s.resumeCalls + 1 ∧
    (doneEvent false s).2.rendering = false ∧
    (doneEvent (doneEvent false s).1 (doneEvent false s).2).2.rendering = false := by
  simp [doneEvent]

/-- C7: a synchronous throw of the hosted render function is captured —
`renderPass` still returns a state, with the error stored — and the adapter's
own next render re-raises it (`componentRender` errors).  The failed
invocation is never retried: the rendering flag stays set, so no later pass
invokes the render function again. -/
theorem render_error_captured (s : RenderCycleState) (rs : RenderState) (e : String)
    (hIdle : s.rendering = false) :
    (renderPass (some (Except.error e)) (some rs) s).error = some e ∧
    componentRender (renderPass (some (Except.error e)) (some rs) s) = Except.error e ∧
    (renderPass (some (Except.error e)) (some rs) s).rendering = true ∧
    ∀ (fn : Option (Except String Unit)) (rst : Option RenderState),
      (renderPass fn rst (renderPass (some (Except.error e)) (some rs) s)).renderInvocations =
        (renderPass (some (Except.error e)) (some rs) s).renderInvocations := by
  refine ⟨by simp [renderPass, hIdle], by simp [renderPass, componentRender, hIdle],
    by simp [renderPass, hIdle], ?_⟩
  intro fn rst
  rcases fn with _ | fr
  · rfl
  rcases rst with _ | r
  · rfl
  cases fr <;> simp [renderPass, hIdle]

/-- C7 witness: the theorem instantiated at the idle initial state with a
concrete throwing render function, the universally quantified continuation
applied to a skipped frame. -/
theorem render_error_captured_wit :
    (renderPass (some (Except.error "boom")) (some ⟨0⟩) ⟨none, false, false, 0, 0, 0⟩).error =
      some "boom" ∧
    componentRender (renderPass (some (Except.error "boom")) (some ⟨0⟩)
      ⟨none, false, false, 0, 0, 0⟩) = Except.error "boom" ∧
    (renderPass (some (Except.error "boom")) (some ⟨0⟩)
      ⟨none, false, false, 0, 0, 0⟩).rendering = true ∧
    (renderPass (some (Except.ok ())) (some ⟨1⟩)
        (renderPass (some (Except.error "boom")) (some ⟨0⟩)
          ⟨none, false, false, 0, 0, 0⟩)).renderInvocations =
      (renderPass (some (Except.error "boom")) (some ⟨0⟩)
        ⟨none, false, false, 0, 0, 0⟩).renderInvocations :=
  ⟨(render_error_captured ⟨none, false, false, 0, 0, 0⟩ ⟨0⟩ "boom" rfl).1,
   (render_error_captured ⟨none, false, false, 0, 0, 0⟩ ⟨0⟩ "boom" rfl).2.1,
   (render_error_captured ⟨none, false, false, 0, 0, 0⟩ ⟨0⟩ "boom" rfl).2.2.1,
   (render_error_captured ⟨none, false, false, 0, 0, 0⟩ ⟨0⟩ "boom" rfl).2.2.2
     (some (Except.ok ())) (some ⟨1⟩)⟩

/-- C9: when the render-state builder yields nothing, the frame is skipped
entirely — the state (slow-render flag, error, rendering flag, and all effect
counters, in particular pause-token acquisitions and render invocations) is
unchanged. -/
theorem skipped_frame_no_change (fn : Option (Except String Unit)) (s : RenderCycleState) :
    renderPass fn none s = s := by
  rcases fn with _ | fr
  · rfl
  · rfl

/-! ## Subscriptions

`PanelExtensionAdapter.tsx`, lines 329-348 (`subscribe`) and 391-394
(`unsubscribeAll`).  The pipeline's subscription registry
(`setSubscriptions(panelId, payloads)`) replaces the payload list stored under
the panel id, which we model with `jsMapSet`. -/

/-- An element of the array passed to `subscribe`: either a plain topic string
or a `Subscription` object `{ topic, preload? }`. -/
inductive SubEntry where
  | topicName (topic : String)
  | sub (topic : String) (preload : Option Bool)
deriving DecidableEq, Repr

/-- A `SubscribePayload` forwarded to the pipeline; `preloadType` is the
string `"full"` or `"partial"`. -/
structure SubscribePayload where
  topic : String
  preloadType : String
deriving DecidableEq, Repr

/-- The single traversal inside `subscribe` (lines 330-344): it accumulates
`newSubscribedTopics` and maps each entry to its `SubscribePayload`.  A plain
string subscribes with full preloading (line 336); an object subscribes with
full preloading exactly when `item.preload === true` (line 342). -/
def subscribeCompute : List SubEntry → List String × List SubscribePayload
  | [] => ([], [])
  | SubEntry.topicName t :: rest =>
      let r := subscribeCompute rest
      (t :: r.1, { topic := t, preloadType := "full" } :: r.2)
  | SubEntry.sub t preload :: rest =>
      let r := subscribeCompute rest
      (t :: r.1,
       { topic := t, preloadType := if preload = some true then "full" else "partial" } :: r.2)

/-- Adapter + pipeline state touched by `subscribe`: the adapter's
`subscribedTopics` list (line 107) and the pipeline's subscription registry
keyed by panel id. -/
structure SubState where
  subscribedTopics : List String
  pipelineSubscriptions : List (String × List SubscribePayload)
deriving DecidableEq, Repr

/-- The `subscribe` operation (lines 329-348): `setSubscribedTopics(newSubscribedTopics)`
and `setSubscriptions(panelId, subscribePayloads)`. -/
def subscribe (panelId : String) (topics : List SubEntry) (s : SubState) : SubState :=
  { subscribedTopics := (subscribeCompute topics).1,
    pipelineSubscriptions :=
      jsMapSet s.pipelineSubscriptions panelId (subscribeCompute topics).2 }

/-- The `unsubscribeAll` operation (lines 391-394). -/
def unsubscribeAll (panelId : String) (s : SubState) : SubState :=
  { subscribedTopics := [],
    pipelineSubscriptions := jsMapSet s.pipelineSubscriptions panelId [] }

/-- C3: `subscribe` is last-write-wins.  After any sequence of `subscribe`
calls, the adapter's subscribed-topic list and the pipeline registry entry for
the panel id are derived from the most recent call only. -/
theorem subscribe_last_write_wins (panelId : String) (calls : List (List SubEntry))
    (lastCall : List SubEntry) (s : SubState) :
    ((calls ++ [lastCall]).foldl (fun st ts => subscribe panelId ts st) s).subscribedTopics =
      (subscribeCompute lastCall).1 ∧
    jsMapGet ((calls ++ [lastCall]).foldl (fun st ts =>
        subscribe panelId ts st) s).pipelineSubscriptions panelId =
      some (subscribeCompute lastCall).2 := by
  rw [List.foldl_append]
  constructor
  · rfl
  · exact jsMapGet_jsMapSet _ panelId _

/-- C10: per-entry payload mapping of `subscribe`.  A plain topic string is
forwarded with full preloading; a subscription object is forwarded with full
preloading exactly when its `preload` field equals `true` and partial
otherwise; in both cases the entry's topic lands in the subscribed-topic
list. -/
theorem subscribe_preload_mapping (panelId : String) (entries : List SubEntry) (s : SubState) :
    (subscribe panelId entries s).subscribedTopics =
      entries.map (fun e => match e with
        | SubEntry.topicName t => t
        | SubEntry.sub t _ => t) ∧
    jsMapGet (subscribe panelId entries s).pipelineSubscriptions panelId =
      some (entries.map (fun e => match e with
        | SubEntry.topicName t => { topic := t, preloadType := "full" }
        | SubEntry.sub t preload =>
            { topic := t,
              preloadType := if preload = some true then "full" else "partial" })) := by
  have hcompute : ∀ l : List SubEntry,
      subscribeCompute l =
        (l.map (fun e => match e with
          | SubEntry.topicName t => t
          | SubEntry.sub t _ => t),
         l.map (fun e => match e with
          | SubEntry.topicName t => { topic := t, preloadType := "full" }
          | SubEntry.sub t preload =>
              { topic := t,
                preloadType := if preload = some true then "full" else "partial" })) := by
    intro l
    induction l with
    | nil => rfl
    | cons e rest ih =>
      cases e <;> simp [subscribeCompute, ih]
  refine ⟨?_, ?_⟩
  · show (subscribeCompute entries).1 = _
    rw [hcompute]
  · show jsMapGet (jsMapSet s.pipelineSubscriptions panelId (subscribeCompute entries).2)
        panelId = _
    rw [jsMapGet_jsMapSet, hcompute]

/-! ## Advertisements

`PanelExtensionAdapter.tsx`, lines 350-374.  `advertisementsRef` is a
JavaScript `Map` from topic name to `AdvertiseOptions`; after each mutation
the full value list is pushed to the pipeline with
`setPublishers(panelId, Array.from(advertisementsRef.current.values()))`. -/

/-- The payload stored per advertised topic (lines 352-356).  The `options`
record is not inspected by the adapter, so we model it as an association
list. -/
structure AdvertiseOptions where
  topic : String
  datatype : String
  options : Option (List (String × String))
deriving DecidableEq, Repr

/-- Adapter + pipeline state touched by `advertise`/`unadvertise`: the
`advertisementsRef` map (line 127) and the pipeline's publisher registry keyed
by panel id. -/
structure PubState where
  advertisements : List (String × AdvertiseOptions)
  pipelinePublishers : List (String × List AdvertiseOptions)
deriving DecidableEq, Repr

/-- The `advertise` operation (lines 350-364): store the payload under the topic and push
the whole value list to the pipeline. -/
def advertise (panelId topic datatype : String) (options : Option (List (String × String)))
    (s : PubState) : PubState :=
  let payload : AdvertiseOptions := { topic := topic, datatype := datatype, options := options }
  let ads := jsMapSet s.advertisements topic payload
  { advertisements := ads,
    pipelinePublishers := jsMapSet s.pipelinePublishers panelId (jsMapValues ads) }

/-- The `unadvertise` operation (lines 366-374): delete the topic and push the whole value
list to the pipeline. -/
def unadvertise (panelId topic : String) (s : PubState) : PubState :=
  let ads := jsMapDelete s.advertisements topic
  { advertisements := ads,
    pipelinePublishers := jsMapSet s.pipelinePublishers panelId (jsMapValues ads) }

/-- A concrete starting state for the C5 counterexample: the topic `"t"` is
already advertised with datatype `"old"`, and the pipeline registry is
consistent with the advertisement map. -/
def pubStateC5 : PubState :=
  { advertisements := [("t", { topic := "t", datatype := "old", options := none })],
    pipelinePublishers :=
      [("p", [{ topic := "t", datatype := "old", options := none }])] }

/-- C5 counterexample: if the topic was already advertised before the pair of
calls, `advertise` overwrites the old payload and `unadvertise` removes the
entry outright, so the pipeline's publisher registration for the panel id does
NOT return to its prior state — the claim's "regardless of what
advertisements existed beforehand" fails. -/
theorem advertise_unadvertise_counterexample :
    jsMapGet (unadvertise "p" "t"
        (advertise "p" "t" "new" none pubStateC5)).pipelinePublishers "p" = some [] ∧
    jsMapGet pubStateC5.pipelinePublishers "p" =
      some [{ topic := "t", datatype := "old", options := none }] ∧
    jsMapGet (unadvertise "p" "t"
        (advertise "p" "t" "new" none pubStateC5)).pipelinePublishers "p" ≠
      jsMapGet pubStateC5.pipelinePublishers "p" := by
  refine ⟨by rfl, by rfl, ?_⟩
  intro hcontra
  rw [show jsMapGet (unadvertise "p" "t"
        (advertise "p" "t" "new" none pubStateC5)).pipelinePublishers "p" = some [] from rfl,
      show jsMapGet pubStateC5.pipelinePublishers "p" =
        some [{ topic := "t", datatype := "old", options := none }] from rfl] at hcontra
  simp at hcontra

/-- C5 amended: provided the topic is NOT already advertised, and the
pipeline's publisher registration for the panel id is consistent with the
advertisement map (as it is in every reachable state), `advertise` followed by
`unadvertise` of that topic restores both the advertisement map and the
pipeline's publisher registration for the panel id to their state before
either call. -/
theorem advertise_unadvertise_roundtrip (panelId topic datatype : String)
    (options : Option (List (String × String))) (s : PubState)
    (hAbsent : jsMapGet s.advertisements topic = none)
    (hConsistent : jsMapGet s.pipelinePublishers panelId =
      some (jsMapValues s.advertisements)) :
    (unadvertise panelId topic (advertise panelId topic datatype options s)).advertisements =
      s.advertisements ∧
    jsMapGet (unadvertise panelId topic
        (advertise panelId topic datatype options s)).pipelinePublishers panelId =
      jsMapGet s.pipelinePublishers panelId := by
  have hads : jsMapDelete (jsMapSet s.advertisements topic
      { topic := topic, datatype := datatype, options := options }) topic = s.advertisements :=
    jsMapDelete_jsMapSet_of_absent s.advertisements topic _ hAbsent
  constructor
  · show jsMapDelete (jsMapSet s.advertisements topic _) topic = s.advertisements
    exact hads
  · show jsMapGet (jsMapSet _ panelId (jsMapValues (jsMapDelete
        (jsMapSet s.advertisements topic _) topic))) panelId = _
    rw [hads, jsMapGet_jsMapSet, hConsistent]

/-- A concrete starting state for the C5 witness: another topic `"t1"` is
already advertised and the pipeline registry is consistent with the map. -/
def pubStateC5w : PubState :=
  { advertisements := [("t1", { topic := "t1", datatype := "d1", options := none })],
    pipelinePublishers :=
      [("p", [{ topic := "t1", datatype := "d1", options := none }])] }

/-- C5 witness: the amended round trip at a concrete state where another
topic is already advertised and the advertised/unadvertised topic is fresh. -/
theorem advertise_unadvertise_roundtrip_wit :
    (unadvertise "p" "t2" (advertise "p" "t2" "dt" none pubStateC5w)).advertisements =
      pubStateC5w.advertisements ∧
    jsMapGet (unadvertise "p" "t2"
        (advertise "p" "t2" "dt" none pubStateC5w)).pipelinePublishers "p" =
      jsMapGet pubStateC5w.pipelinePublishers "p" :=
  advertise_unadvertise_roundtrip "p" "t2" "dt" none pubStateC5w (by rfl) (by rfl)

/-! ## Preview time

`PanelExtensionAdapter.tsx`, lines 302-320 (`setPreviewTime`).  The hover
store keeps at most one hover value per component id; the adapter always uses
the component id `"PanelExtensionAdatper"` (sic, the typo is in the source),
so we model the store's slot for that id.  Timestamps (the `stamp` argument,
in seconds, and `toSec(startTime)`) are modelled as integers; the adapter only
subtracts them. -/

/-- The hover value passed to `setHoverValue` (lines 314-318). -/
structure HoverValue where
  type : String
  componentId : String
  value : Int
deriving DecidableEq, Repr

/-- The pipeline/global state `setPreviewTime` reads and writes: the hover
slot for the adapter's component id, and
`playerState.activeData?.startTime` (line 307), absent when no start time is
known. -/
structure PreviewState where
  hoverValue : Option HoverValue
  startTime : Option Int
deriving DecidableEq, Repr

/-- The `setPreviewTime` operation (lines 302-320): `undefined` clears the hover value
(line 304); a defined stamp is a no-op when the player start time is unknown
(lines 310-312), and otherwise stores seconds-from-start under
`"PLAYBACK_SECONDS"`. -/
def setPreviewTime (stamp : Option Int) (s : PreviewState) : PreviewState :=
  match stamp with
  | none => { s with hoverValue := none }
  | some t =>
    match s.startTime with
    | none => s
    | some startTime =>
      { s with hoverValue := some { type := "PLAYBACK_SECONDS",
                                    componentId := "PanelExtensionAdatper",
                                    value := t - startTime } }

/-- C6: `setPreviewTime undefined` clears any previously set hover value, and
`setPreviewTime t` for a defined `t` is a no-op whenever the player start time
is not known. -/
theorem setPreviewTime_clear_and_noop (s : PreviewState) (t : Int) :
    (setPreviewTime none s).hoverValue = none ∧
    setPreviewTime (some t) { s with startTime := none } = { s with startTime := none } :=
  ⟨rfl, rfl⟩

/-! ## Panel lifecycle: configuration clearing and re-initialization

`PanelExtensionAdapter.tsx`, lines 148-153 (`useUpdateEffect` reacting to a
`config` change) and lines 427-458 (the init `useLayoutEffect`, which re-runs
whenever `panelId` changes because `panelId` is among its dependencies and is
also baked into `partialExtensionContext`).

`uuid()` freshness is modelled by a `nextId` counter: every generated id is
`nextId`, which is then bumped, so ids never repeat as long as
`panelId < nextId` (true in every reachable state).  "A new render-state
builder instance" (line 434 `setBuildRenderState(() => initRenderStateBuilder())`)
is modelled by bumping a generation counter. -/

/-- The panel `config` value.  The adapter only compares it against the empty
object `{}` with lodash `isEqual` (line 150), so a record modelled as a list
of key-value pairs, empty exactly when the object is `{}`, suffices. -/
abbrev PanelConfig := List (String × String)

/-- The adapter state touched by configuration clearing and
re-initialization. -/
structure PanelLifecycleState where
  config : PanelConfig
  initialState : PanelConfig
  panelId : Nat
  nextId : Nat
  watchedFields : List String
  hasRenderFn : Bool
  builderGeneration : Nat
deriving DecidableEq, Repr

/-- The `useUpdateEffect` body (lines 148-153), run when `config` changes:
keep `initialState.current` updated, and when the new config is (deep-)equal
to the empty object, generate a fresh panel id. -/
def configUpdateEffect (newConfig : PanelConfig) (s : PanelLifecycleState) :
    PanelLifecycleState :=
  let s1 := { s with config := newConfig, initialState := newConfig }
  if newConfig = [] then
    { s1 with panelId := s1.nextId, nextId := s1.nextId + 1 }
  else
    s1

/-- The init `useLayoutEffect` body (lines 427-451), re-run when `panelId`
changes: `setRenderFn(undefined)` (line 433) and a fresh render-state builder
(line 434).  Nothing in it touches `watchedFields`. -/
def initPanelEffect (s : PanelLifecycleState) : PanelLifecycleState :=
  { s with hasRenderFn := false, builderGeneration := s.builderGeneration + 1 }

/-- The `watch` operation (lines 322-327): add a field to the watched set (a JavaScript
`Set`, insertion-ordered, ignoring duplicates). -/
def watch (field : String) (s : PanelLifecycleState) : PanelLifecycleState :=
  { s with watchedFields :=
      if s.watchedFields.contains field then s.watchedFields
      else s.watchedFields ++ [field] }

/-- A concrete reachable state for the C4 counterexample: non-empty config
and one watched field, registered through `watch`. -/
def lifecycleStateC4 : PanelLifecycleState :=
  watch "topics"
    { config := [("a", "1")], initialState := [("a", "1")], panelId := 0, nextId := 1,
      watchedFields := [], hasRenderFn := true, builderGeneration := 0 }

/-- C4 counterexample: clearing a non-empty configuration regenerates the
panel id and re-runs initialization, but the resulting re-initialization does
NOT reset the watched-field set — it survives unchanged, refuting the claim
that the reset covers "both the watched-field set and the render-state
builder". -/
theorem config_clear_counterexample :
    lifecycleStateC4.config = [("a", "1")] ∧
    lifecycleStateC4.watchedFields = ["topics"] ∧
    (initPanelEffect (configUpdateEffect [] lifecycleStateC4)).watchedFields = ["topics"] ∧
    (initPanelEffect (configUpdateEffect [] lifecycleStateC4)).watchedFields ≠ [] := by
  refine ⟨rfl, rfl, rfl, ?_⟩
  intro hcontra
  simp [initPanelEffect, configUpdateEffect, lifecycleStateC4, watch] at hcontra

/-- C4 amended: when the configuration becomes empty after having been
non-empty, the adapter generates a fresh panel identifier and re-runs
initialization, which resets the render function and the render-state builder;
the watched-field set is NOT reset and persists across the
re-initialization. -/
theorem config_clear_reinit (newConfig : PanelConfig) (s : PanelLifecycleState)
    (_hWasNonEmpty : s.config ≠ []) (hEmpty : newConfig = [])
    (hFresh : s.panelId < s.nextId) :
    (initPanelEffect (configUpdateEffect newConfig s)).panelId ≠ s.panelId ∧
    (initPanelEffect (configUpdateEffect newConfig s)).hasRenderFn = false ∧
    (initPanelEffect (configUpdateEffect newConfig s)).builderGeneration =
      s.builderGeneration + 1 ∧
    (initPanelEffect (configUpdateEffect newConfig s)).watchedFields = s.watchedFields := by
  subst hEmpty
  refine ⟨?_, rfl, rfl, rfl⟩
  show s.nextId ≠ s.panelId
  exact Nat.ne_of_gt hFresh

/-- C4 witness: the amended theorem at the concrete counterexample state. -/
theorem config_clear_reinit_wit :
    (initPanelEffect (configUpdateEffect [] lifecycleStateC4)).panelId ≠
      lifecycleStateC4.panelId ∧
    (initPanelEffect (configUpdateEffect [] lifecycleStateC4)).hasRenderFn = false ∧
    (initPanelEffect (configUpdateEffect [] lifecycleStateC4)).builderGeneration =
      lifecycleStateC4.builderGeneration + 1 ∧
    (initPanelEffect (configUpdateEffect [] lifecycleStateC4)).watchedFields =
      lifecycleStateC4.watchedFields :=
  config_clear_reinit [] lifecycleStateC4 (by decide) rfl (by decide)

/-! ## Layout `addPanel`

`PanelExtensionAdapter.tsx`, lines 268-281.  For position `"sibling"` the
request is forwarded to `openSiblingPanel`; any other position reaches
`assertNever(position, ...)`. -/

/-- The open-sibling-panel request forwarded for position `"sibling"`
(lines 272-276).  The `siblingConfigCreator` closure wraps the caller's
`getState` and is not inspected by the adapter, so it is omitted here. -/
structure SiblingPanelRequest where
  panelType : String
  updateIfExists : Bool
deriving DecidableEq, Repr

/-- Modelled from the spec: `assertNever`
(`src/packages/studio-base/src/util/assertNever.ts`, not among the supplied
files) signals a programming error immediately — "any other placement value
is a programming-error signaled immediately", "fail immediately and loudly,
not recoverable" — i.e. it throws with the supplied message. -/
def assertNever (message : String) : Except String α :=
  Except.error message

/-- The `layout.addPanel` operation (lines 269-280): forward an open-sibling-panel request
for position `"sibling"`, otherwise fail via `assertNever` with the
`Unsupported position` message. -/
def addPanel (position panelType : String) (updateIfExists : Bool) :
    Except String SiblingPanelRequest :=
  if position = "sibling" then
    Except.ok { panelType := panelType, updateIfExists := updateIfExists }
  else
    assertNever ("Unsupported position for addPanel: " ++ position)

/-- C8: `addPanel` supports only the `"sibling"` placement — that position
forwards an open-sibling-panel request, and every other position fails
immediately with a programming error instead of being ignored. -/
theorem addPanel_sibling_only (position panelType : String) (updateIfExists : Bool) :
    (position = "sibling" →
      addPanel position panelType updateIfExists =
        Except.ok { panelType := panelType, updateIfExists := updateIfExists }) ∧
    (position ≠ "sibling" →
      addPanel position panelType updateIfExists =
        Except.error ("Unsupported position for addPanel: " ++ position)) := by
  constructor
  · intro hpos
    simp [addPanel, hpos]
  · intro hpos
    simp [addPanel, assertNever, hpos]

/-- C8 witness: the theorem applied at the supported position and at a
concrete unsupported one. -/
theorem addPanel_sibling_only_wit :
    addPanel "sibling" "Plot" true =
      Except.ok { panelType := "Plot", updateIfExists := true } ∧
    addPanel "floating" "Plot" true =
      Except.error ("Unsupported position for addPanel: " ++ "floating") :=
  ⟨(addPanel_sibling_only "sibling" "Plot" true).1 rfl,
   (addPanel_sibling_only "floating" "Plot" true).2 (by decide)⟩

end Studio

